import Mathlib

/-!
Verification of the watchdog core of the sync-downloaded-files repository.

The Python sources embedded here are
  src/sync_downloaded_files/sync_downloaded_files.py   (namespace SDF)
  src/sync_downloaded_files/sync-downloaded-files.py   (namespace SDFScript)

Modelling conventions:
- Python decimal text is parsed into exact rationals; every concrete value
  appearing in a theorem below is small enough that the exact-rational value
  and the IEEE-double value truncate and round identically.
- Python exceptions are modelled with the Except monad; a raising call site
  returns Except.error and a caller with no handler propagates it.
- time.time() is modelled by an explicit rational-valued timestamp argument;
  the several calls inside one loop iteration are collapsed to one value.
- Character classes of the regexes are ASCII, matching the ASCII text the
  program consumes.
-/

deriving instance DecidableEq for Except

namespace SDF

/-- The Python exception kinds that the program raises or handles:
ValueError (raised by parse_rate, locale.atoi and float), KeyboardInterrupt
and subprocess.CalledProcessError (both handled in execute_rsync). -/
inductive PyErr where
  | valueError (msg : String)
  | keyboardInterrupt
  | calledProcessError
deriving DecidableEq, Repr

/-- Regex character class [0-9,] used by the bytes group of the progress pattern. -/
def isBytesChar (c : Char) : Bool := c.isDigit || c == ','

/-- Regex character class [0-9.] used by the percent group and the val group. -/
def isValChar (c : Char) : Bool := c.isDigit || c == '.'

/-- Regex character class [0-9A-Za-z.] used by the rate group. -/
def isRateChar (c : Char) : Bool := c.isDigit || c.isAlpha || c == '.'

/-- Python str.upper restricted to ASCII text. -/
def pyupper (s : List Char) : List Char := s.map Char.toUpper

/-- Whitespace stripped by Python str.strip (ASCII whitespace). -/
def isPySpace (c : Char) : Bool :=
  c == ' ' || c == '\t' || c == '\n' || c == '\r' || c == '\x0b' || c == '\x0c'

/-- Python str.strip: remove leading and trailing whitespace. -/
def pystrip (l : List Char) : List Char :=
  ((l.dropWhile isPySpace).reverse.dropWhile isPySpace).reverse

def digitVal (c : Char) : ℕ := c.toNat - 48

def digitsToNat (l : List Char) : ℕ := l.foldl (fun a c => a * 10 + digitVal c) 0

/-- Exact rational arithmetic spelled out on numerators and denominators, so
that concrete instances evaluate; ratSub_eq and ratMul_eq below identify them
with the ring operations of the rational numbers. -/
def ratSub (a b : ℚ) : ℚ := mkRat (a.num * b.den - b.num * a.den) (a.den * b.den)

def ratMul (a b : ℚ) : ℚ := mkRat (a.num * b.num) (a.den * b.den)

theorem ratSub_eq (a b : ℚ) : ratSub a b = a - b := (Rat.sub_def' a b).symm

theorem ratMul_eq (a b : ℚ) : ratMul a b = a * b := (Rat.mul_eq_mkRat a b).symm

/-- Python float() on a token drawn from the regex class [0-9.]: it succeeds
exactly when the token has at most one dot and at least one digit, and yields
the exact decimal value, digits before the dot and digits after it over the
matching power of ten. (Tokens fed to it here only ever contain digits and
dots; anything else makes it fail like float() does.) -/
def pyfloat? (l : List Char) : Option ℚ :=
  let ip := l.takeWhile Char.isDigit
  match l.drop ip.length with
  | [] => if ip.isEmpty then none else some (mkRat (digitsToNat ip) 1)
  | '.' :: fp =>
      if fp.all Char.isDigit && !(ip.isEmpty && fp.isEmpty) then
        some (mkRat (digitsToNat (ip ++ fp)) (10 ^ fp.length))
      else none
  | _ => none

/-- Python int() applied after a possible underscore grouping: digits with
single underscores strictly between digits. Accumulates the value. -/
def pydigitsU : ℕ → List Char → Option ℕ
  | acc, [] => some acc
  | acc, '_' :: c :: rest =>
      if c.isDigit then pydigitsU (acc * 10 + digitVal c) rest else none
  | _, ['_'] => none
  | acc, c :: rest =>
      if c.isDigit then pydigitsU (acc * 10 + digitVal c) rest else none

def pyUnsigned? : List Char → Option ℕ
  | [] => none
  | c :: rest => if c.isDigit then pydigitsU (digitVal c) rest else none

/-- Python int(str): strips whitespace, takes an optional sign, then digits
with optional single underscores between digits; anything else raises. -/
def pyint? (l : List Char) : Option ℤ :=
  match pystrip l with
  | '+' :: rest => (pyUnsigned? rest).map (fun n => (n : ℤ))
  | '-' :: rest => (pyUnsigned? rest).map (fun n => -(n : ℤ))
  | rest => (pyUnsigned? rest).map (fun n => (n : ℤ))

/-- locale.delocalize under the program's en_US locale: the thousands
separator (comma) is removed and the decimal point (dot) maps to itself. -/
def delocalize (l : List Char) : List Char := l.filter (fun c => c ≠ ',')

/-- locale.atoi: int() of the delocalized text; none models the ValueError. -/
def atoi? (l : List Char) : Option ℤ := pyint? (delocalize l)

/-- Python int() applied to a float / exact rational: truncation toward
zero, which on the reduced fraction is truncating integer division. -/
def pytrunc (q : ℚ) : ℤ := q.num.tdiv q.den

/-- Python round() to an integer: nearest, ties to even, computed on the
reduced fraction. f is the floor; twice is 2 times the remainder numerator,
compared against the denominator to locate the half-way point. -/
def pyround (q : ℚ) : ℤ :=
  let f := q.num.fdiv q.den
  let twice := 2 * (q.num - f * (q.den : ℤ))
  if twice < (q.den : ℤ) then f
  else if (q.den : ℤ) < twice then f + 1
  else if 2 ∣ f then f else f + 1

/-- One attempt of re.search of the parse_rate pattern
(?P val [0-9.]+)(?P unit [a-zA-Z]+)/s at the head of the text. The greedy
character-class runs never need to backtrack here because the classes of
adjacent atoms are disjoint, so maximal munch is exact. -/
def rateAt? (l : List Char) : Option (List Char × List Char) :=
  let val := l.takeWhile isValChar
  if val.isEmpty then none
  else
    let l1 := l.dropWhile isValChar
    let unit := l1.takeWhile Char.isAlpha
    if unit.isEmpty then none
    else
      match l1.dropWhile Char.isAlpha with
      | '/' :: 's' :: _ => some (val, unit)
      | _ => none

/-- re.search of the parse_rate pattern: leftmost attempt that succeeds.
Returns the val and unit groups. -/
def rateSearch : List Char → Option (List Char × List Char)
  | [] => none
  | c :: rest =>
    match rateAt? (c :: rest) with
    | some g => some g
    | none => rateSearch rest

/-- parse_rate (sync_downloaded_files.py lines 272-290). On no regex match it
prints and returns 0; on a match it converts the val text with float() (which
can raise), uppercases the unit, scales KB by 1024 and MB by 1024*1024, raises
ValueError on any other unit, and truncates the product with int(). -/
def parse_rate (rate_string : String) : Except PyErr ℤ :=
  match rateSearch rate_string.data with
  | none => .ok 0
  | some (valS, unitS) =>
    match pyfloat? valS with
    | none => .error (.valueError ("could not convert string to float: " ++ String.mk valS))
    | some val =>
      let unit := String.mk (pyupper unitS)
      if unit = "KB" then .ok (pytrunc (ratMul val 1024))
      else if unit = "MB" then .ok (pytrunc (ratMul (ratMul val 1024) 1024))
      else .error (.valueError ("Unknown unit!: " ++ unit))

/-- The deterministic tail of the progress regex after the bytes group:
one or more spaces, the percent group [0-9.]+ then a percent sign, one or
more spaces, the rate group [0-9A-Za-z.]+/s, one or more spaces, the eta
group of a digit run and two colon-separated digit pairs, then anything.
Each greedy run here is followed by a character its class excludes, so
maximal munch coincides with the backtracking semantics of re. Returns the
percent, rate and eta groups. -/
def tailMatch (l : List Char) : Option (List Char × List Char × List Char) :=
  if (l.takeWhile (· == ' ')).isEmpty then none
  else
    let l1 := l.dropWhile (· == ' ')
    let pc := l1.takeWhile isValChar
    if pc.isEmpty then none
    else
      match l1.dropWhile isValChar with
      | '%' :: l3 =>
        if (l3.takeWhile (· == ' ')).isEmpty then none
        else
          let l4 := l3.dropWhile (· == ' ')
          let rt := l4.takeWhile isRateChar
          if rt.isEmpty then none
          else
            match l4.dropWhile isRateChar with
            | '/' :: 's' :: l6 =>
              if (l6.takeWhile (· == ' ')).isEmpty then none
              else
                let l7 := l6.dropWhile (· == ' ')
                let d1 := l7.takeWhile Char.isDigit
                if d1.isEmpty then none
                else
                  match l7.dropWhile Char.isDigit with
                  | ':' :: a :: b :: ':' :: c :: d :: _ =>
                    if a.isDigit && b.isDigit && c.isDigit && d.isDigit then
                      some (pc, rt ++ ['/', 's'], d1 ++ [':', a, b, ':', c, d])
                    else none
                  | _ => none
            | _ => none
      | _ => none

/-- Scan for the end position of the bytes group, from the right. Position
j + 1 is a candidate when the character at index j is in [0-9,] and the
deterministic tail matches everything after it. -/
def searchProgressAux (line : List Char) :
    ℕ → Option (List Char × List Char × List Char × List Char)
  | 0 => none
  | j + 1 =>
    if isBytesChar (line.getD j ' ') then
      match tailMatch (line.drop (j + 1)) with
      | some (pc, rt, et) => some (line.take (j + 1), pc, rt, et)
      | none => searchProgressAux line j
    else searchProgressAux line j

/-- re.search of the verbose progress pattern of parse_progress_line
(sync_downloaded_files.py lines 381-393). The pattern opens with a greedy
dot-star inside the bytes group, so any successful search is a match that
starts at position 0, and the bytes group runs from 0 to the end of the
chosen digit-and-comma run. Greediness makes re commit to the largest end
position j whose character is in [0-9,] and whose tail matches; the scan
below therefore tries j from the right. Returns the bytes, percent, rate
and eta groups. -/
def searchProgress (line : List Char) :
    Option (List Char × List Char × List Char × List Char) :=
  searchProgressAux line line.length

/-- The NamedTuple holding one parsed progress line
(sync_downloaded_files.py lines 241-245). The percent is a Python float,
modelled as an exact rational; the eta is the matched text, unparsed. -/
structure RsyncProgressStatus where
  bytes_transferred : ℤ
  percent_transferred : ℚ
  transfer_rate : ℤ
  eta : String
deriving DecidableEq, Repr

/-- parse_progress_line (sync_downloaded_files.py lines 373-406). A line
that the progress regex rejects yields none; a matching line has its bytes
group parsed with locale.atoi, its percent group with float and its rate
group with parse_rate, in source order, and any of the three can raise a
ValueError that the function does not handle. -/
def parse_progress_line (line : String) : Except PyErr (Option RsyncProgressStatus) :=
  match searchProgress line.data with
  | none => .ok none
  | some (b, p, r, e) =>
    match atoi? b with
    | none =>
        .error (.valueError ("invalid literal for int() with base 10: " ++ String.mk (delocalize b)))
    | some bytes_transferred =>
      match pyfloat? p with
      | none => .error (.valueError ("could not convert string to float: " ++ String.mk p))
      | some percent_transferred =>
        match parse_rate (String.mk r) with
        | .error err => .error err
        | .ok transfer_rate =>
          .ok (some { bytes_transferred := bytes_transferred,
                      percent_transferred := percent_transferred,
                      transfer_rate := transfer_rate,
                      eta := String.mk e })

/-- Module constants (sync_downloaded_files.py lines 37-38). -/
def RATE_LOW_TIMEOUT : ℚ := 30

def TRANSFER_RATE_MIN : ℤ := 100000

/-- The States class (sync_downloaded_files.py lines 166-178). -/
structure States where
  low_xfer_rate : Bool
  last_acceptable_rate_time : ℚ
  last_line : String
  last_was_progress : Bool
deriving DecidableEq, Repr

/-- The body of the if-progress-stats branch of watch_rsync_progress
(sync_downloaded_files.py lines 212-232): the effect of one parsed progress
sample on the states, and whether this sample sets should_terminate. The
several time.time() calls of one update are collapsed into now. -/
def rate_policy_update (transfer_rate : ℤ) (states : States) (now : ℚ) :
    Bool × States :=
  let states := { states with last_was_progress := true }
  if transfer_rate > TRANSFER_RATE_MIN then
    (false, { states with last_acceptable_rate_time := now, low_xfer_rate := false })
  else
    if ¬ states.low_xfer_rate then
      (false, { states with low_xfer_rate := true })
    else
      let states := { states with last_was_progress := false }
      if ratSub now states.last_acceptable_rate_time > RATE_LOW_TIMEOUT then
        (true, states)
      else
        (false, states)

/-- Handling of one line inside watch_rsync_progress (lines 202-236): parse
it (which may raise), feed a parsed sample to the rate policy, record an
unparsed nonempty line as the last status line. The prints are elided. -/
def processLine (states : States) (line : String) (now : ℚ) :
    Except PyErr (Bool × States) :=
  match parse_progress_line line with
  | .error e => .error e
  | .ok (some progress_stats) =>
      .ok (rate_policy_update progress_stats.transfer_rate states now)
  | .ok none =>
      if line ≠ "" then
        .ok (false, { states with last_was_progress := false, last_line := line })
      else
        .ok (false, states)

/-- Python str.splitlines restricted to the line terminators that occur in
the modelled text: newline, carriage return, and the pair. The empty string
yields no lines and a trailing terminator adds none. -/
def pysplitlines : List Char → List Char → List (List Char)
  | [], cur => if cur.isEmpty then [] else [cur.reverse]
  | '\r' :: '\n' :: rest, cur => cur.reverse :: pysplitlines rest []
  | '\n' :: rest, cur => cur.reverse :: pysplitlines rest []
  | '\r' :: rest, cur => cur.reverse :: pysplitlines rest []
  | c :: rest, cur => pysplitlines rest (c :: cur)

/-- watch_rsync_progress (sync_downloaded_files.py lines 181-238). Each
entry of chunks is the decoded text that os.read returned for one ready
descriptor; an empty read is skipped, the others are stripped and split
into lines, and every line is processed in order. should_terminate is set
by any line whose sample trips the rate policy and is never reset. An
unhandled ValueError from a line aborts the whole call. -/
def watch_rsync_progress (chunks : List String) (states : States) (now : ℚ) :
    Except PyErr (Bool × States) :=
  chunks.foldlM
    (fun (acc : Bool × States) data =>
      if data.data.isEmpty then pure acc
      else
        (pysplitlines (pystrip data.data) []).foldlM
          (fun (acc2 : Bool × States) lineChars => do
            let (term, states2) ← processLine acc2.2 (String.mk lineChars) now
            pure (acc2.1 || term, states2))
          acc)
    (false, states)

/-- What the select loop of run_rsync_command observes in one iteration:
the decoded os.read results for the ready descriptors (empty when select
timed out), the result of process.poll, and the current time. -/
structure Event where
  ready : List String
  poll : Option ℤ
  now : ℚ
deriving DecidableEq, Repr

/-- The process-control signals the loop can send to the child. -/
inductive Signal where
  | terminate
  | kill
deriving DecidableEq, Repr

/-- The outcome of one loop iteration of run_rsync_command: the states and
activity timestamp it leaves behind, the signals it sent, in order, and
whether it broke out of the loop. -/
structure StepResult where
  states : States
  last_activity : ℚ
  signals : List Signal
  exited : Bool
deriving DecidableEq, Repr

/-- One iteration of the while loop of run_rsync_command
(sync_downloaded_files.py lines 130-154). With ready descriptors the loop
stamps last_activity with the current time, runs watch_rsync_progress
(whose ValueError it does not handle) and terminates the child if asked;
with no ready descriptor it breaks when the child has exited, and otherwise
terminates after 60 seconds without activity and additionally kills after
120, each check made independently. -/
def run_rsync_step (states : States) (last_activity : ℚ) (ev : Event) :
    Except PyErr StepResult :=
  if ev.ready ≠ [] then
    match watch_rsync_progress ev.ready states ev.now with
    | .error e => .error e
    | .ok (should_terminate, states2) =>
        .ok { states := states2, last_activity := ev.now,
              signals := if should_terminate then [Signal.terminate] else [],
              exited := false }
  else if ev.poll ≠ none then
    .ok { states := states, last_activity := last_activity, signals := [], exited := true }
  else
    .ok { states := states, last_activity := last_activity,
          signals :=
            (if ratSub ev.now last_activity > 60 then [Signal.terminate] else []) ++
            (if ratSub ev.now last_activity > 120 then [Signal.kill] else []),
          exited := false }

/-- The except clauses of execute_rsync (sync_downloaded_files.py lines
90-99): only KeyboardInterrupt and subprocess.CalledProcessError are
handled around the call into run_rsync_command. -/
def execute_rsync_catches : PyErr → Bool
  | .keyboardInterrupt => true
  | .calledProcessError => true
  | .valueError _ => false

/-- Total bytes delivered by the reads of one event. -/
def totalReadBytes (ev : Event) : ℕ := (ev.ready.map String.length).sum

/-- The text contains a substring of the shape decimal, then letters, then
slash and s: some position splits it into a prefix, a nonempty run of
digits and dots, a nonempty run of ASCII letters, a slash and an s, and a
remainder. This is the language of the parse_rate search pattern. -/
def hasRateToken (s : List Char) : Prop :=
  ∃ pre d u rest,
    s = pre ++ (d ++ (u ++ ('/' :: 's' :: rest))) ∧ d ≠ [] ∧
      (∀ c ∈ d, isValChar c = true) ∧ u ≠ [] ∧ (∀ c ∈ u, c.isAlpha = true)

end SDF

namespace SDFScript

/-- parse_rate of the second script (sync-downloaded-files.py lines
200-215). Its source text is identical, character for character, to the
parse_rate of sync_downloaded_files.py, so the embedding is the same
composition of the same regex and conversion models. -/
def parse_rate (rate_string : String) : Except SDF.PyErr ℤ :=
  match SDF.rateSearch rate_string.data with
  | none => .ok 0
  | some (valS, unitS) =>
    match SDF.pyfloat? valS with
    | none =>
        .error (.valueError ("could not convert string to float: " ++ String.mk valS))
    | some val =>
      let unit := String.mk (SDF.pyupper unitS)
      if unit = "KB" then .ok (SDF.pytrunc (SDF.ratMul val 1024))
      else if unit = "MB" then .ok (SDF.pytrunc (SDF.ratMul (SDF.ratMul val 1024) 1024))
      else .error (.valueError ("Unknown unit!: " ++ unit))

end SDFScript

namespace SDF

theorem isAlpha_isDigit_false (c : Char) (h : c.isAlpha = true) : c.isDigit = false := by
  simp [Char.isAlpha, Char.isUpper, Char.isLower, Char.isDigit] at *
  rcases h with ⟨h1, h2⟩ | ⟨h1, h2⟩ <;> intro h3
  · have h1n : (65:ℕ) ≤ c.val.toNat := h1
    show (57:ℕ) < c.val.toNat
    omega
  · have h1n : (97:ℕ) ≤ c.val.toNat := h1
    show (57:ℕ) < c.val.toNat
    omega

theorem isAlpha_beq_dot_false (c : Char) (h : c.isAlpha = true) : (c == '.') = false := by
  rcases h' : c == '.' with _ | _
  · rfl
  · rw [beq_iff_eq] at h'
    subst h'
    simp [Char.isAlpha, Char.isUpper, Char.isLower] at h

theorem isAlpha_isValChar_false (c : Char) (h : c.isAlpha = true) : isValChar c = false := by
  simp [isValChar, isAlpha_isDigit_false c h, isAlpha_beq_dot_false c h]

/-- A text of the exact token shape makes the head attempt of the rate
search succeed with the decimal part and the unit part as the two groups. -/
theorem rateAt_token (d u rest : List Char) (hd : d ≠ [])
    (hdall : ∀ c ∈ d, isValChar c = true) (hu : u ≠ [])
    (hual : ∀ c ∈ u, c.isAlpha = true) :
    rateAt? (d ++ (u ++ ('/' :: 's' :: rest))) = some (d, u) := by
  obtain ⟨d0, d', rfl⟩ := List.exists_cons_of_ne_nil hd
  obtain ⟨u0, u', rfl⟩ := List.exists_cons_of_ne_nil hu
  have hd0 : isValChar d0 = true := hdall d0 (List.mem_cons_self d0 d')
  have hdall' : ∀ c ∈ d', isValChar c = true := fun c hc => hdall c (List.mem_cons_of_mem d0 hc)
  have hu0a : Char.isAlpha u0 = true := hual u0 (List.mem_cons_self u0 u')
  have hual' : ∀ c ∈ u', Char.isAlpha c = true := fun c hc => hual c (List.mem_cons_of_mem u0 hc)
  have hu0 : ¬ isValChar u0 = true := by
    simp [isAlpha_isValChar_false u0 hu0a]
  have hsl : ¬ Char.isAlpha '/' = true := by decide
  simp only [rateAt?, List.cons_append]
  rw [List.takeWhile_cons_of_pos hd0, List.takeWhile_append_of_pos hdall',
    List.takeWhile_cons_of_neg hu0, List.append_nil]
  rw [List.dropWhile_cons_of_pos hd0, List.dropWhile_append_of_pos hdall',
    List.dropWhile_cons_of_neg hu0]
  rw [List.takeWhile_cons_of_pos hu0a, List.takeWhile_append_of_pos hual',
    List.takeWhile_cons_of_neg hsl, List.append_nil]
  rw [List.dropWhile_cons_of_pos hu0a, List.dropWhile_append_of_pos hual',
    List.dropWhile_cons_of_neg hsl]
  simp

/-- The rate search finds the head token immediately. -/
theorem rateSearch_token (d u rest : List Char) (hd : d ≠ [])
    (hdall : ∀ c ∈ d, isValChar c = true) (hu : u ≠ [])
    (hual : ∀ c ∈ u, c.isAlpha = true) :
    rateSearch (d ++ (u ++ ('/' :: 's' :: rest))) = some (d, u) := by
  obtain ⟨d0, d', rfl⟩ := List.exists_cons_of_ne_nil hd
  rw [List.cons_append, rateSearch, ← List.cons_append,
    rateAt_token (d0 :: d') u rest (by simp) hdall hu hual]

/-- A successful head attempt of the rate search exhibits the token shape
at the head of the text. -/
theorem rateAt_some (l val unit : List Char) (h : rateAt? l = some (val, unit)) :
    ∃ rest, l = val ++ (unit ++ ('/' :: 's' :: rest)) ∧ val ≠ [] ∧
      (∀ c ∈ val, isValChar c = true) ∧ unit ≠ [] ∧ (∀ c ∈ unit, c.isAlpha = true) := by
  simp only [rateAt?] at h
  split at h
  · exact absurd h (by simp)
  · split at h
    · exact absurd h (by simp)
    · split at h
      · rename_i hcond1 hcond2 x tail heq
        rw [Option.some.injEq, Prod.mk.injEq] at h
        obtain ⟨hv, hu⟩ := h
        subst hv
        subst hu
        refine ⟨tail, ?_, ?_, ?_, ?_, ?_⟩
        · rw [← heq, List.takeWhile_append_dropWhile, List.takeWhile_append_dropWhile]
        · intro e
          exact hcond1 (by simp [e])
        · intro c hc
          exact List.mem_takeWhile_imp hc
        · intro e
          exact hcond2 (by simp [e])
        · intro c hc
          exact List.mem_takeWhile_imp hc
      · exact absurd h (by simp)

/-- A successful rate search exhibits a rate token somewhere in the text. -/
theorem hasRateToken_of_rateSearch_some (s : List Char) (g : List Char × List Char)
    (h : rateSearch s = some g) : hasRateToken s := by
  induction s with
  | nil => simp [rateSearch] at h
  | cons c rest ih =>
    rw [rateSearch] at h
    rcases e : rateAt? (c :: rest) with _ | ⟨val, unit⟩
    · rw [e] at h
      obtain ⟨pre, d, u, r2, hdec, props⟩ := ih h
      exact ⟨c :: pre, d, u, r2, by rw [List.cons_append, hdec], props⟩
    · obtain ⟨tail, hdec, hv1, hv2, hu1, hu2⟩ := rateAt_some (c :: rest) val unit e
      exact ⟨[], val, unit, tail, by rw [List.nil_append, hdec], hv1, hv2, hu1, hu2⟩

/-- A rate token somewhere in the text makes the rate search succeed. -/
theorem rateSearch_ne_none_of_hasRateToken (s : List Char) (h : hasRateToken s) :
    rateSearch s ≠ none := by
  obtain ⟨pre, d, u, rest, rfl, hd, hdall, hu, hual⟩ := h
  induction pre with
  | nil =>
    rw [List.nil_append, rateSearch_token d u rest hd hdall hu hual]
    simp
  | cons c pre' ih =>
    rw [List.cons_append, rateSearch]
    rcases e : rateAt? (c :: (pre' ++ (d ++ (u ++ ('/' :: 's' :: rest))))) with _ | g
    · simpa using ih
    · simp

/-- The rate search fails exactly on the texts with no rate token. -/
theorem rateSearch_none_iff (s : List Char) :
    rateSearch s = none ↔ ¬ hasRateToken s := by
  constructor
  · intro h htok
    exact rateSearch_ne_none_of_hasRateToken s htok h
  · intro h
    rcases e : rateSearch s with _ | g
    · rfl
    · exact absurd (hasRateToken_of_rateSearch_some s g e) h

/-- C1: the rate-policy evaluation of one sample terminates exactly when
the rate is at or below the 100000 floor, the low-rate streak was already
set by the preceding sample, and more than 30 seconds have elapsed since
the last acceptable sample; a rate strictly above the floor stamps the
acceptable time, clears the streak and continues; a first low sample only
sets the streak and continues. -/
theorem rate_policy_evaluate (rate : ℤ) (states : States) (now : ℚ) :
    ((rate_policy_update rate states now).1 = true ↔
      rate ≤ TRANSFER_RATE_MIN ∧ states.low_xfer_rate = true ∧
        now - states.last_acceptable_rate_time > RATE_LOW_TIMEOUT) ∧
    (rate > TRANSFER_RATE_MIN →
      rate_policy_update rate states now =
        (false,
          { states with
              last_was_progress := true
              last_acceptable_rate_time := now
              low_xfer_rate := false })) ∧
    (rate ≤ TRANSFER_RATE_MIN → states.low_xfer_rate = false →
      rate_policy_update rate states now =
        (false, { states with last_was_progress := true, low_xfer_rate := true })) := by
  unfold rate_policy_update
  simp only [ratSub_eq]
  by_cases h1 : rate > TRANSFER_RATE_MIN
  · simp [h1, not_le.mpr h1]
  · rw [not_lt] at h1
    by_cases h2 : states.low_xfer_rate
    · by_cases h3 : now - states.last_acceptable_rate_time > RATE_LOW_TIMEOUT
      · simp [not_lt.mpr h1, h1, h2, h3]
      · simp [not_lt.mpr h1, h1, h2, h3]
    · simp [not_lt.mpr h1, h1, h2]

/-- Witness for C1: with the streak set, a 50000 rate and 31 seconds past
the last acceptable sample, the evaluation decides to terminate. -/
theorem rate_policy_evaluate_witness :
    (rate_policy_update 50000 ⟨true, 0, "", false⟩ 31).1 = true :=
  (rate_policy_evaluate 50000 ⟨true, 0, "", false⟩ 31).1.mpr
    ⟨by decide, rfl, ratSub_eq 31 0 ▸ (by decide : ratSub (31:ℚ) 0 > RATE_LOW_TIMEOUT)⟩

/-- C2 (amended): the parser returns none on any line the progress regex
rejects, and on a matching line whose captured fields all convert without
raising (bytes by locale.atoi, percent by float, rate by parse_rate) it
returns the sample built from those conversions with the eta text passed
through unchanged; a matching line whose conversion raises propagates the
error instead of returning. -/
theorem parse_progress_amended (line : String) :
    (searchProgress line.data = none → parse_progress_line line = .ok none) ∧
    (∀ b p r e bv pv rv,
      searchProgress line.data = some (b, p, r, e) →
      atoi? b = some bv →
      pyfloat? p = some pv →
      parse_rate (String.mk r) = .ok rv →
      parse_progress_line line =
        .ok (some { bytes_transferred := bv, percent_transferred := pv,
                    transfer_rate := rv, eta := String.mk e })) := by
  constructor
  · intro h
    simp [parse_progress_line, h]
  · intro b p r e bv pv rv h1 h2 h3 h4
    simp [parse_progress_line, h1, h2, h3, h4]

/-- Witness for C2 on the literal line of scenario A of the spec. -/
theorem parse_progress_amended_witness :
    parse_progress_line " 823,915,288  35%   36.65MB/s    0:00:40"
      = .ok (some { bytes_transferred := 823915288, percent_transferred := 35,
                    transfer_rate := 38430310, eta := "0:00:40" }) :=
  (parse_progress_amended " 823,915,288  35%   36.65MB/s    0:00:40").2
    (" 823,915,288").data ("35").data ("36.65MB/s").data ("0:00:40").data
    823915288 35 38430310 (by decide) (by decide) (by decide) (by decide)

/-- Counterexample to C2 as stated: this line matches the five-field
grammar, with a decimal-plus-unit rate token, yet the parser raises the
unit ValueError instead of returning a sample or none. -/
theorem parse_progress_nontotal :
    searchProgress (" 2,000  10%   7GB/s    0:00:09").data
      = some ((" 2,000").data, ("10").data, ("7GB/s").data, ("0:00:09").data) ∧
    parse_progress_line " 2,000  10%   7GB/s    0:00:09"
      = .error (.valueError "Unknown unit!: GB") :=
  ⟨by decide, by decide⟩

/-- C3: the ValueError that parse_rate raises for an unknown unit is not
handled anywhere in the supervisor: it escapes watch_rsync_progress and the
run_rsync_command loop iteration, and the except clauses of execute_rsync
do not catch a ValueError, so the session aborts instead of continuing. -/
theorem unit_error_escapes :
    run_rsync_step ⟨false, 0, "", false⟩ 0 ⟨[" 1,000  35%   5GB/s    0:00:40"], none, 1⟩
      = .error (.valueError "Unknown unit!: GB") ∧
    execute_rsync_catches (.valueError "Unknown unit!: GB") = false :=
  ⟨by decide, rfl⟩

/-- C4: on a select timeout with the child still running, the loop sends a
graceful terminate exactly when more than 60 seconds have passed since the
last activity, and sends a kill exactly when more than 120 seconds have
passed, the kill check being made independently of the terminate check. -/
theorem activity_ladder (states : States) (la : ℚ) (ev : Event) (r : StepResult)
    (hready : ev.ready = []) (hpoll : ev.poll = none)
    (h : run_rsync_step states la ev = .ok r) :
    (Signal.terminate ∈ r.signals ↔ ev.now - la > 60) ∧
    (Signal.kill ∈ r.signals ↔ ev.now - la > 120) := by
  rw [← ratSub_eq]
  unfold run_rsync_step at h
  simp [hready, hpoll] at h
  subst h
  by_cases h60 : ratSub ev.now la > 60 <;> by_cases h120 : ratSub ev.now la > 120 <;>
    simp [h60, h120]

/-- Witness for C4 at 121 seconds of silence: both signals are sent and
both iff conditions hold. -/
theorem activity_ladder_witness :
    (Signal.terminate ∈ ([Signal.terminate, Signal.kill] : List Signal) ↔ (121:ℚ) - 0 > 60) ∧
    (Signal.kill ∈ ([Signal.terminate, Signal.kill] : List Signal) ↔ (121:ℚ) - 0 > 120) :=
  activity_ladder ⟨false, 0, "", false⟩ 0 ⟨[], none, 121⟩
    ⟨⟨false, 0, "", false⟩, 0, [Signal.terminate, Signal.kill], false⟩ rfl rfl (by decide)

/-- C5 (amended): a well-formed rate token with unit KB or MB in any case
is converted to the decimal value times 1024 or 1024 times 1024, truncated
toward zero by int(), not rounded to nearest. -/
theorem parse_rate_truncates (d u : String) (v : ℚ)
    (hv : pyfloat? d.data = some v)
    (hd : d.data ≠ []) (hdall : ∀ c ∈ d.data, isValChar c = true)
    (hu : u.data ≠ []) (hual : ∀ c ∈ u.data, c.isAlpha = true)
    (hunit : String.mk (pyupper u.data) = "KB" ∨ String.mk (pyupper u.data) = "MB") :
    parse_rate (d ++ u ++ "/s")
      = .ok (pytrunc (if String.mk (pyupper u.data) = "KB" then ratMul v 1024
                      else ratMul (ratMul v 1024) 1024)) := by
  have hsearch : rateSearch (d ++ u ++ "/s").data = some (d.data, u.data) := by
    rw [String.data_append, String.data_append, List.append_assoc,
      show ("/s").data = '/' :: 's' :: [] from rfl]
    exact rateSearch_token d.data u.data [] hd hdall hu hual
  unfold parse_rate
  rw [hsearch]
  simp only [hv]
  rcases hunit with h | h <;> simp [h]

/-- Witness for C5 on the 32.4KB per second token of the spec. -/
theorem parse_rate_truncates_witness :
    parse_rate ("32.4" ++ "KB" ++ "/s")
      = .ok (pytrunc (if String.mk (pyupper ("KB").data) = "KB" then ratMul (mkRat 324 10) 1024
                      else ratMul (ratMul (mkRat 324 10) 1024) 1024)) :=
  parse_rate_truncates "32.4" "KB" (mkRat 324 10) (by decide) (by decide) (by decide)
    (by decide) (by decide) (Or.inl (by decide))

/-- Counterexample to C5 as stated: on the 6.8MB per second token of the
spec the code truncates to 7130316 while rounding to nearest gives 7130317,
so parse_rate does not round. -/
theorem parse_rate_round_counterexample :
    parse_rate "6.8MB/s" = .ok 7130316 ∧
    pyround (ratMul (ratMul (mkRat 68 10) 1024) 1024) = 7130317 ∧ (7130316 : ℤ) ≠ 7130317 :=
  ⟨by decide, by decide, by decide⟩

/-- C6: a well-formed rate token whose unit uppercases to neither KB nor MB
makes parse_rate raise the unit ValueError, an outcome distinct from the
integer result that a failed search returns. -/
theorem parse_rate_unknown_unit (d u : String) (v : ℚ)
    (hv : pyfloat? d.data = some v)
    (hd : d.data ≠ []) (hdall : ∀ c ∈ d.data, isValChar c = true)
    (hu : u.data ≠ []) (hual : ∀ c ∈ u.data, c.isAlpha = true)
    (hKB : String.mk (pyupper u.data) ≠ "KB") (hMB : String.mk (pyupper u.data) ≠ "MB") :
    parse_rate (d ++ u ++ "/s")
      = .error (.valueError ("Unknown unit!: " ++ String.mk (pyupper u.data))) := by
  have hsearch : rateSearch (d ++ u ++ "/s").data = some (d.data, u.data) := by
    rw [String.data_append, String.data_append, List.append_assoc,
      show ("/s").data = '/' :: 's' :: [] from rfl]
    exact rateSearch_token d.data u.data [] hd hdall hu hual
  unfold parse_rate
  rw [hsearch]
  simp only [hv]
  simp [hKB, hMB]

/-- Witness for C6 on the 5GB per second token of the spec. -/
theorem parse_rate_unknown_unit_witness :
    parse_rate ("5" ++ "GB" ++ "/s")
      = .error (.valueError ("Unknown unit!: " ++ String.mk (pyupper ("GB").data))) :=
  parse_rate_unknown_unit "5" "GB" (mkRat 5 1) (by decide) (by decide) (by decide)
    (by decide) (by decide) (by decide) (by decide)

/-- C7 (amended): the loop stamps last_activity with the current time
exactly when select reports at least one ready descriptor, regardless of
how many bytes the reads then deliver; on a timeout the stamp is kept. -/
theorem last_activity_reflects_select (states : States) (la : ℚ) (ev : Event) (r : StepResult)
    (h : run_rsync_step states la ev = .ok r) :
    r.last_activity = if ev.ready = [] then la else ev.now := by
  unfold run_rsync_step at h
  by_cases hr : ev.ready = []
  · simp only [hr, ne_eq, not_true_eq_false, if_false, if_true, reduceIte] at h ⊢
    by_cases hp : ev.poll = none
    · simp [hp] at h
      subst h
      rfl
    · simp [hp] at h
      subst h
      rfl
  · simp only [hr, ne_eq, not_false_eq_true, if_true, reduceIte] at h ⊢
    rcases e : watch_rsync_progress ev.ready states ev.now with err | pair
    · rw [e] at h
      cases h
    · rw [e] at h
      obtain ⟨term, states2⟩ := pair
      simp at h
      subst h
      rfl

/-- Witness for C7 applying the amended statement to an event with one
ready descriptor whose read returns no bytes. -/
theorem last_activity_reflects_select_witness :
    ({ states := ⟨false, 0, "", false⟩, last_activity := 5, signals := [],
       exited := false } : StepResult).last_activity
      = if ([""] : List String) = [] then (0:ℚ) else 5 :=
  last_activity_reflects_select ⟨false, 0, "", false⟩ 0 ⟨[""], none, 5⟩ _ (by decide)

/-- Counterexample to C7 as stated: a ready descriptor delivering a
zero-byte read still advances last_activity from 0 to 5, although no byte
was read in the iteration. -/
theorem last_activity_zero_read_counterexample :
    run_rsync_step ⟨false, 0, "", false⟩ 0 ⟨[""], none, 5⟩
      = .ok { states := ⟨false, 0, "", false⟩, last_activity := 5, signals := [],
              exited := false } ∧
    totalReadBytes ⟨[""], none, 5⟩ = 0 ∧ ((5:ℚ) ≠ 0) :=
  ⟨by decide, rfl, by decide⟩

/-- C8: the bytes capture of the progress regex admits an arbitrary prefix,
so this line matches the grammar with bytes text x9, whose non-numeric
prefix makes locale.atoi raise, and the parser raises instead of returning
a sample or none. -/
theorem bytes_prefix_crash :
    searchProgress ("x9  35%  5KB/s  0:00:40").data
      = some (("x9").data, ("35").data, ("5KB/s").data, ("0:00:40").data) ∧
    parse_progress_line "x9  35%  5KB/s  0:00:40"
      = .error (.valueError "invalid literal for int() with base 10: x9") :=
  ⟨by decide, by decide⟩

/-- C9: an input with no substring of the decimal-letters-slash-s shape
makes the rate search fail, and parse_rate then returns 0 with no error;
consequently the grammar-matching line whose rate token is the malformed
MB slash s yields a sample with rate 0, which the rate policy counts as a
low sample, setting the streak without terminating. -/
theorem parse_rate_no_token_zero (s : String) (h : ¬ hasRateToken s.data) :
    parse_rate s = .ok 0 ∧
    parse_progress_line " 1,500  35%   MB/s    0:00:40"
      = .ok (some { bytes_transferred := 1500, percent_transferred := 35,
                    transfer_rate := 0, eta := "0:00:40" }) ∧
    (rate_policy_update 0 ⟨false, 0, "", false⟩ 0).2.low_xfer_rate = true ∧
    (rate_policy_update 0 ⟨false, 0, "", false⟩ 0).1 = false := by
  refine ⟨?_, by decide, by decide, by decide⟩
  have hn : rateSearch s.data = none := (rateSearch_none_iff s.data).mpr h
  unfold parse_rate
  rw [hn]

/-- Witness for C9 on a text with no rate token at all. -/
theorem parse_rate_no_token_zero_witness :
    parse_rate "abc" = .ok 0 :=
  (parse_rate_no_token_zero "abc" ((rateSearch_none_iff ("abc").data).mp (by decide))).1

end SDF

/-- C10: the two copies of parse_rate, one in each script, are
extensionally equal: the same input gives the same integer result or the
same error, because their source texts are identical and so are their
embeddings. -/
theorem parse_rate_copies_agree : ∀ s : String, SDF.parse_rate s = SDFScript.parse_rate s :=
  fun _ => rfl
